import Mathlib

/-!
Verification of the vibe-pulse GA4 dashboard server.

A shallow embedding of the parts of the repository that the specification
talks about:

* `src/server/services/ga4-service.ts` — metric batches sent to the GA4
  `runReport` endpoint, the pure extraction/normalization step of
  `fetchKeyMetrics`, the `calculateChange` helper and
  `formatMetricsForStorage`;
* `src/server/controllers/metrics-controller.ts` and
  `src/server/controllers/insight-controller.ts` — the Express handlers
  (`getLatestMetrics`, `syncMetrics`, `deleteWebsite`, `getInsights`,
  `generateReport`, `getReport`) modelled as pure functions over an explicit
  database state, with the outcome of external calls (GA4, OpenAI) passed in
  as oracles;
* the storage layer (drizzle queries) modelled as list operations over the
  database state, following the schema in `shared/schema.ts`.

JavaScript numbers are modelled as rationals (`Rat`); `Math.round` and
`Number.prototype.toFixed` are modelled with the ECMAScript rounding rule
(ties resolved upward).  Records (`Record<string, number>`) are modelled as
association lists updated in insertion order.
-/

namespace VibePulse

/-! ## JavaScript numeric helpers -/

/-- Model of `Math.round` / the integer chosen by `toFixed`: round to nearest,
ties toward positive infinity (ECMAScript chooses the larger candidate). -/
def jsRound (q : Rat) : Int := ⌊q + 1/2⌋

/-- Render a natural number, left-padded with zeros to `w` digits
(used for the fractional part of `toFixed`). -/
def padDigits (w : Nat) (n : Nat) : String :=
  let s := toString n
  if s.length < w then String.mk (List.replicate (w - s.length) '0') ++ s else s

/-- Model of `x.toFixed(d)`: fixed-point rendering with `d` fractional digits. -/
def toFixed (d : Nat) (q : Rat) : String :=
  let n : Int := jsRound (q * (10 ^ d : Nat))
  let sign := if n < 0 then "-" else ""
  sign ++ toString (n.natAbs / 10 ^ d) ++ "." ++ padDigits d (n.natAbs % 10 ^ d)

/-- JavaScript `a || b` on strings: `b` when `a` is falsy (empty). -/
def jsOrStr (a b : String) : String := if a = "" then b else a

/-- JavaScript truthiness of an optional string (`undefined` and `""` are
falsy). -/
def jsTruthyStr : Option String → Bool
  | none => false
  | some s => s ≠ ""

/-! ## GA4 response rows

`ga4-service.ts` reads `runReport` responses through
`row.dimensionValues?.[i]?.value` and `Number(row.metricValues?.[i]?.value
|| '0')`.  A row is modelled as the list of its dimension values (strings)
and the list of its metric values (already as numbers); a missing entry
reads as `'0'`, i.e. the number 0. -/

structure GA4Row where
  dimensionValues : List String
  metricValues : List Rat
  deriving Repr, DecidableEq, Inhabited

/-- Model of `Number(row.metricValues?.[i]?.value || '0')`. -/
def GA4Row.mval (r : GA4Row) (i : Nat) : Rat := r.metricValues.getD i 0

/-- Model of `row.dimensionValues?.[i]?.value || dflt`. -/
def GA4Row.dval (r : GA4Row) (i : Nat) (dflt : String) : String :=
  jsOrStr (r.dimensionValues.getD i "") dflt

/-! ## Metric batches sent to `runReport`

The literal metric-name lists of every `runReport` request built by
`fetchKeyMetrics` (ga4-service.ts lines 66–90, 289–401) and
`fetchHistoricalData` (lines 480–557). -/

/-- First batch of `fetchKeyMetrics` (lines 66–81). -/
def primaryMetrics : List String :=
  [ "totalUsers"
  , "conversions"
  , "engagementRate"
  , "userEngagementDuration"
  , "sessionsPerUser"
  , "engagedSessions"
  , "screenPageViewsPerSession"
  , "eventCount"
  , "sessions"
  , "activeUsers"
  , "averageSessionDuration" ]

/-- Second batch of `fetchKeyMetrics` (lines 84–90). -/
def secondaryMetrics : List String :=
  [ "eventCountPerUser"
  , "newUsers"
  , "sessionDuration" ]

/-- The metric list of every `runReport` request issued by `fetchKeyMetrics`,
in program order: primary (current), primary (previous), secondary (current),
secondary (previous), channel, source, page, country, and the
views/events/stickiness request. -/
def fetchKeyMetricsBatches : List (List String) :=
  [ primaryMetrics
  , primaryMetrics
  , secondaryMetrics
  , secondaryMetrics
  , ["sessions"]
  , ["sessions"]
  , ["screenPageViews"]
  , ["totalUsers"]
  , ["screenPageViews", "eventCount", "dauPerMau"] ]

/-- Core daily batch of `fetchHistoricalData` (lines 480–485). -/
def coreMetrics : List String :=
  ["totalUsers", "bounceRate", "averageSessionDuration"]

/-- Enhanced daily batch of `fetchHistoricalData` (lines 488–495). -/
def enhancedMetrics : List String :=
  [ "sessionsPerUser"
  , "engagedSessions"
  , "screenPageViewsPerSession"
  , "eventCount"
  , "userEngagementDuration"
  , "newUsers" ]

/-- The metric list of every `runReport` request issued by
`fetchHistoricalData`, in program order: daily core, daily enhanced,
landing pages, traffic sources. -/
def fetchHistoricalDataBatches : List (List String) :=
  [ coreMetrics
  , enhancedMetrics
  , ["totalUsers", "bounceRate", "averageSessionDuration"]
  , ["totalUsers", "bounceRate"] ]

/-! ## `calculateChange` (ga4-service.ts lines 181–185) -/

/-- Model of the `calculateChange` arrow function: guard on a zero
previous value, otherwise render the percentage change to one decimal
place, marking positive changes with a plus sign. -/
def calculateChange (current previous : Rat) : String :=
  if previous = 0 then "0%"
  else
    let change := ((current - previous) / previous) * 100
    (if change > 0 then "+" else "") ++ toFixed 1 change ++ "%"

/-! ## Association-list model of JavaScript record objects -/

/-- Model of `m[k] = v`: overwrite in place when the key exists, append otherwise
(JavaScript objects keep first-insertion key order). -/
def assocSet {α : Type} (m : List (String × α)) (k : String) (v : α) :
    List (String × α) :=
  if m.any (fun p => p.1 = k) then
    m.map (fun p => if p.1 = k then (k, v) else p)
  else m ++ [(k, v)]

/-- Model of `if (m[k]) { m[k] += v } else { m[k] = v }`: note that an existing entry
equal to 0 is falsy and is overwritten with `v`, which coincides with adding. -/
def assocAdd (m : List (String × Rat)) (k : String) (v : Rat) :
    List (String × Rat) :=
  if m.any (fun p => p.1 = k) then
    m.map (fun p => if p.1 = k then (p.1, p.2 + v) else p)
  else m ++ [(k, v)]

/-- Build a record from the rows of one dimension-breakdown response
(`rows.forEach(row => { m[key(row)] = val(row) })`, rows absent when the
surrounding `try` failed before the request). -/
def buildRecord {α : Type} (rows : Option (List GA4Row)) (f : GA4Row → String × α) :
    List (String × α) :=
  (rows.getD []).foldl (fun m row => assocSet m (f row).1 (f row).2) []

/-! ## `GA4MetricsData` (ga4-service.ts lines 7–37)

Optional TypeScript fields become `Option`; `Record<string, number>` becomes
an association list.  The `rawCurrentData`/`rawPreviousData` blobs are kept
as the raw response rows; `deviceCategory`, `countryBreakdown` and
`browserData` are declared in the interface but never assigned anywhere in
the repository and are omitted. -/

structure GA4MetricsData where
  visitors : Rat
  conversions : Option Rat
  bounceRate : String
  visitorsChange : String
  conversionsChange : Option String
  bounceRateChange : String
  activeUsers : Option Rat
  newUsers : Option Rat
  eventCount : Option Rat
  avgEngagementTime : Option String
  viewsCount : Option Rat
  sessionsByChannel : Option (List (String × Int))
  sessionsBySource : Option (List (String × Int))
  viewsByPage : Option (List (String × Int))
  usersByCountry : Option (List (String × Int))
  userStickiness : Option String
  rawCurrentData : Option (List GA4Row)
  rawPreviousData : Option (List GA4Row)
  deviceBreakdown : Option (List (String × Rat))
  platformBreakdown : Option (List (String × Rat))
  deriving Repr, DecidableEq, Inhabited

/-- The response rows that `fetchKeyMetrics` receives from its `runReport`
calls.  `none` for the secondary batch models the caught failure of that
fetch (lines 131–170); `none` for the breakdown/extra requests models the
caught failure of the corresponding `try` block (lines 286–375, 388–415).
The previous-period secondary response is fetched but never read afterwards
and is not modelled. -/
structure FetchInputs where
  currentPrimary : List GA4Row
  previousPrimary : List GA4Row
  secondaryCurrent : Option (List GA4Row)
  channelRows : Option (List GA4Row)
  sourceRows : Option (List GA4Row)
  pageRows : Option (List GA4Row)
  countryRows : Option (List GA4Row)
  metricsRows : Option (List GA4Row)
  deriving Repr, DecidableEq, Inhabited

/-- Truncation toward zero, as JavaScript's `%` uses. -/
def intTrunc (q : Rat) : Int := if 0 ≤ q then ⌊q⌋ else -⌊-q⌋

/-- JavaScript `a % b` on numbers (sign follows the dividend). -/
def jsFmod (a b : Rat) : Rat := a - b * intTrunc (a / b)

/-! ## The pure extraction step of `fetchKeyMetrics`
(ga4-service.ts lines 172–468) -/

/-- Everything `fetchKeyMetrics` computes after its `runReport` calls have
returned, translated statement by statement from lines 172–468. -/
def fetchKeyMetricsExtract (inp : FetchInputs) : GA4MetricsData :=
  -- lines 177–178: rows?.[0]?.metricValues?.slice(0, 4) || []
  let currentData : List Rat :=
    match inp.currentPrimary with
    | [] => []
    | r :: _ => r.metricValues.take 4
  let previousData : List Rat :=
    match inp.previousPrimary with
    | [] => []
    | r :: _ => r.metricValues.take 4
  -- lines 188–198
  let currentVisitors := currentData.getD 0 0
  let previousVisitors := previousData.getD 0 0
  let currentConversions := currentData.getD 1 0
  let previousConversions := previousData.getD 1 0
  let currentEngagementRate := currentData.getD 2 0
  let previousEngagementRate := previousData.getD 2 0
  -- lines 201–202
  let currentBounceRate := max 0 (min 1 (1 - currentEngagementRate))
  let previousBounceRate := max 0 (min 1 (1 - previousEngagementRate))
  -- lines 215–243: device and platform breakdowns from the primary rows
  let breakdowns :=
    inp.currentPrimary.foldl
      (fun (acc : List (String × Rat) × List (String × Rat)) row =>
        let platform := row.dval 0 "unknown"
        let device := row.dval 1 "unknown"
        let users := row.mval 0
        (assocAdd acc.1 platform users, assocAdd acc.2 device users))
      ([], [])
  let platformBreakdown := breakdowns.1
  let deviceBreakdown := breakdowns.2
  -- lines 247–257: "active users" read from fixed metric index 8 of the
  -- first primary row (the code's comment says index 8)
  let activeUsers : Rat :=
    match inp.currentPrimary with
    | [] => 0
    | r :: _ => if 8 < r.metricValues.length then r.mval 8 else 0
  -- lines 266–284: accumulate over the secondary rows
  let newUsers : Rat :=
    match inp.secondaryCurrent with
    | none => 0
    | some rows => rows.foldl (fun acc row => acc + row.mval 1) 0
  let eventCount : Rat :=
    match inp.secondaryCurrent with
    | none => 0
    | some rows => rows.foldl (fun acc row => acc + row.mval 0) 0
  -- lines 288–305: channel breakdown
  let sessionsByChannel : List (String × Int) :=
    buildRecord inp.channelRows fun row =>
      ((row.dval 0 "unknown").toLower, jsRound (row.mval 0))
  -- lines 307–325: source breakdown
  let sessionsBySource : List (String × Int) :=
    buildRecord inp.sourceRows fun row =>
      ((row.dval 0 "unknown").toLower, jsRound (row.mval 0))
  -- lines 327–345: page-views breakdown
  let viewsByPage : List (String × Int) :=
    buildRecord inp.pageRows fun row =>
      (row.dval 0 "unknown", jsRound (row.mval 0))
  -- lines 347–372: country breakdown with the simplified code mapping
  let usersByCountry : List (String × Int) :=
    buildRecord inp.countryRows fun row =>
      let country := row.dval 0 "unknown"
      let countryCode :=
        if country = "United States" then "US"
        else if country = "United Kingdom" then "GB"
        else (country.take 2).toUpper
      (countryCode, jsRound (row.mval 0))
  -- lines 388–415: accurate views/events and DAU/MAU from the extra request
  let extra : Int × Int × Rat :=
    match inp.metricsRows with
    | some (r :: _) => (jsRound (r.mval 0), jsRound (r.mval 1), r.mval 2)
    | _ => (0, 0, 0)
  let actualViewsCount := extra.1
  let actualEventCount := extra.2.1
  let dauPerMau := extra.2.2
  -- lines 417–423
  let userEngagementDuration : Rat :=
    if currentData.length > 3 then currentData.getD 3 0 else 0
  -- lines 427–429
  let minutes : Int := ⌊userEngagementDuration / 60⌋
  let seconds : Int := ⌊jsFmod userEngagementDuration 60⌋
  let engagementTime := toString minutes ++ "m " ++ toString seconds ++ "s"
  -- lines 435–466
  { visitors := (jsRound currentVisitors : Int)
  , conversions := some ((jsRound currentConversions : Int) : Rat)
  , bounceRate := toFixed 2 (min 100 (max 0 (currentBounceRate * 100))) ++ "%"
  , visitorsChange := calculateChange currentVisitors previousVisitors
  , conversionsChange := some (calculateChange currentConversions previousConversions)
  -- the isNaN guard of line 444 cannot fire in the rational model
  , bounceRateChange := calculateChange currentBounceRate previousBounceRate
  , activeUsers := some ((jsRound activeUsers : Int) : Rat)
  , newUsers := some ((jsRound newUsers : Int) : Rat)
  , eventCount :=
      some (if actualEventCount > 0 then (actualEventCount : Rat)
            else ((jsRound eventCount : Int) : Rat))
  , avgEngagementTime := some engagementTime
  , viewsCount := some (if actualViewsCount > 0 then (actualViewsCount : Rat) else 0)
  , userStickiness :=
      if dauPerMau > 0 then some (toFixed 1 (dauPerMau * 100) ++ "%") else none
  , sessionsByChannel := some sessionsByChannel
  , sessionsBySource := some sessionsBySource
  , viewsByPage := some viewsByPage
  , usersByCountry := some usersByCountry
  , rawCurrentData := some inp.currentPrimary
  , rawPreviousData := some inp.previousPrimary
  , deviceBreakdown := some deviceBreakdown
  , platformBreakdown := some platformBreakdown }

/-! ## `InsertMetric` (shared/schema.ts, `metrics` table) and
`formatMetricsForStorage` (ga4-service.ts lines 654–695) -/

/-- A value of the `metrics` insert schema: one row as inserted by
`storage.insertMetrics` (the serial `id` and the `createdAt`/`updatedAt`
columns filled by the database are not part of the insert value). `date`
is a timestamp, modelled as a clock reading. -/
structure InsertMetric where
  websiteId : Int
  date : Nat
  visitors : Int
  conversions : Int
  bounceRate : String
  pageSpeed : String
  visitorsChange : String
  conversionsChange : String
  bounceRateChange : String
  pageSpeedChange : String
  activeUsers : Int
  newUsers : Int
  eventCount : Int
  avgEngagementTime : String
  viewsCount : Int
  userStickiness : String
  sessionsByChannel : List (String × Int)
  sessionsBySource : List (String × Int)
  viewsByPage : List (String × Int)
  usersByCountry : List (String × Int)
  deriving Repr, DecidableEq, Inhabited

/-- JavaScript `a || b` where `a` is an optional number: `undefined`, `0`
(and `NaN`, absent from the rational model) give `b`. -/
def jsOrNum (a : Option Rat) (b : Rat) : Rat :=
  match a with
  | none => b
  | some v => if v = 0 then b else v

/-- JavaScript `a || b` where `a` is an optional string. -/
def jsOrStrOpt (a : Option String) (b : String) : String :=
  match a with
  | none => b
  | some s => jsOrStr s b

/-- Model of `formatMetricsForStorage(metricsData, websiteId)`.  The TypeScript body
evaluates `new Date()`; that clock reading enters the model as the explicit
`now` argument. -/
def formatMetricsForStorage (metricsData : GA4MetricsData) (websiteId : Int)
    (now : Nat) : InsertMetric :=
  { websiteId := websiteId
  , date := now
  , visitors := jsRound metricsData.visitors
  , conversions := 0
  , bounceRate := metricsData.bounceRate
  , pageSpeed := "3.5s"
  , visitorsChange := metricsData.visitorsChange
  , conversionsChange := "0%"
  , bounceRateChange := metricsData.bounceRateChange
  , pageSpeedChange := "0%"
  , activeUsers := jsRound (jsOrNum metricsData.activeUsers 0)
  , newUsers := jsRound (jsOrNum metricsData.newUsers 0)
  , eventCount := jsRound (jsOrNum metricsData.eventCount 0)
  , avgEngagementTime := jsOrStrOpt metricsData.avgEngagementTime "0s"
  , viewsCount := jsRound (jsOrNum metricsData.viewsCount 0)
  , userStickiness := jsOrStrOpt metricsData.userStickiness "0.0%"
  , sessionsByChannel := metricsData.sessionsByChannel.getD []
  , sessionsBySource := metricsData.sessionsBySource.getD []
  , viewsByPage := metricsData.viewsByPage.getD []
  , usersByCountry := metricsData.usersByCountry.getD [] }

/-! ## Database rows (shared/schema.ts) and the storage layer
(server/storage.ts)

Only the columns the verified handlers read are carried; serial ids are
generated from an explicit counter. -/

structure UserRow where
  id : Int
  email : String
  name : String
  googleId : String
  refreshToken : Option String
  deriving Repr, DecidableEq, Inhabited

structure WebsiteRow where
  id : Int
  userId : Int
  name : String
  domain : String
  gaPropertyId : String
  deriving Repr, DecidableEq, Inhabited

structure MetricRow where
  id : Int
  data : InsertMetric
  deriving Repr, DecidableEq, Inhabited

structure InsightRow where
  id : Int
  websiteId : Int
  category : String
  impact : String
  detectedAt : Nat
  deriving Repr, DecidableEq, Inhabited

/-- The `response` jsonb blob is opaque to the server; it is modelled as a
string. -/
structure ReportRow where
  id : Int
  userId : Int
  websiteId : Int
  query : String
  response : Option String
  status : String
  createdAt : Nat
  updatedAt : Nat
  deriving Repr, DecidableEq, Inhabited

structure DB where
  users : List UserRow
  websites : List WebsiteRow
  metrics : List MetricRow
  insights : List InsightRow
  reports : List ReportRow
  nextId : Int
  deriving Repr, DecidableEq, Inhabited

def getUserById (db : DB) (id : Int) : Option UserRow :=
  db.users.find? (fun u => u.id == id)

def getWebsiteById (db : DB) (id : Int) : Option WebsiteRow :=
  db.websites.find? (fun w => w.id == id)

def getReportById (db : DB) (id : Int) : Option ReportRow :=
  db.reports.find? (fun r => r.id == id)

/-- Model of `findFirst` with `orderBy: [desc(metrics.date)]`: a row of maximal date
among the rows of the website (ties resolved by database order, which SQL
leaves unspecified; the model keeps the first). -/
def getLatestMetricsByWebsiteId (db : DB) (websiteId : Int) : Option MetricRow :=
  (db.metrics.filter (fun m => m.data.websiteId == websiteId)).foldl
    (fun acc m =>
      match acc with
      | none => some m
      | some a => if m.data.date > a.data.date then some m else some a)
    none

def insertMetrics (db : DB) (m : InsertMetric) : DB × MetricRow :=
  let row : MetricRow := { id := db.nextId, data := m }
  ({ db with metrics := db.metrics ++ [row], nextId := db.nextId + 1 }, row)

def insertReport (db : DB) (userId websiteId : Int) (query : String)
    (status : String) (now : Nat) : DB × ReportRow :=
  let row : ReportRow :=
    { id := db.nextId, userId := userId, websiteId := websiteId
    , query := query, response := none, status := status
    , createdAt := now, updatedAt := now }
  ({ db with reports := db.reports ++ [row], nextId := db.nextId + 1 }, row)

/-- The `Partial<InsertReport>` patches `updateReport` is called with:
only `status` and `response` are ever supplied. -/
structure ReportUpdate where
  status : Option String := none
  response : Option String := none
  deriving Repr, DecidableEq, Inhabited

/-- Model of `.set({ ...data, updatedAt: new Date() })`: supplied fields override,
the rest keep their values. -/
def applyReportUpdate (r : ReportRow) (u : ReportUpdate) (now : Nat) : ReportRow :=
  { r with
    status := u.status.getD r.status
  , response := match u.response with | none => r.response | some v => some v
  , updatedAt := now }

def updateReport (db : DB) (id : Int) (u : ReportUpdate) (now : Nat) : DB :=
  { db with
    reports := db.reports.map fun r =>
      if r.id == id then applyReportUpdate r u now else r }

/-- Model of `storage.deleteWebsite` (storage.ts lines 58–70): delete all metrics,
insights and reports of the website, then the website row, returning the
deleted website row. -/
def deleteWebsiteStorage (db : DB) (id : Int) : DB × Option WebsiteRow :=
  ({ db with
     metrics := db.metrics.filter (fun m => m.data.websiteId != id)
   , insights := db.insights.filter (fun i => i.websiteId != id)
   , reports := db.reports.filter (fun r => r.websiteId != id)
   , websites := db.websites.filter (fun w => w.id != id) }
  , db.websites.find? (fun w => w.id == id))

/-- Insertion into a list sorted descending by `key`. -/
def insertDescBy {α : Type} (key : α → Nat) (x : α) : List α → List α
  | [] => [x]
  | y :: ys => if key x ≥ key y then x :: y :: ys else y :: insertDescBy key x ys

def sortDescBy {α : Type} (key : α → Nat) (l : List α) : List α :=
  l.foldr (insertDescBy key) []

/-- Model of `storage.getInsightsByWebsiteId` (storage.ts lines 86–124): filter by
website, then by the optional category/impact filters (skipping the
"All Categories"/"All Impacts" sentinels), order by `detectedAt`
descending, and paginate with `limit ?? 100` and `offset ?? 0`. -/
def getInsightsByWebsiteId (db : DB) (websiteId : Int)
    (category impact : Option String) (limit offset : Option Int) :
    List InsightRow :=
  let base := db.insights.filter (fun i => i.websiteId == websiteId)
  let base :=
    if jsTruthyStr category ∧ category ≠ some "All Categories" then
      base.filter (fun i => some i.category == category)
    else base
  let base :=
    if jsTruthyStr impact ∧ impact ≠ some "All Impacts" then
      base.filter (fun i => some i.impact == impact)
    else base
  let lim := (limit.getD 100).toNat
  let off := (offset.getD 0).toNat
  ((sortDescBy (fun i => i.detectedAt) base).drop off).take lim

/-! ## Express handlers

Each handler is a pure function of the database state, the session's
`userId` (`none` models a request with no authenticated session), the parsed
route/query/body parameters (`none` models a missing or `NaN` value), and an
oracle for the outcome of the external GA4/OpenAI calls.  It returns an HTTP
status code and the database state after the handler (including any work the
handler started asynchronously) has run to completion. -/

/-- Model of `const validDays = !isNaN(parsedDays) ? Math.min(90, Math.max(1, parsedDays)) : 30`
(metrics-controller.ts line 84); `none` models `NaN`. -/
def validDays (parsedDays : Option Int) : Int :=
  match parsedDays with
  | some d => min 90 (max 1 d)
  | none => 30

/-- The date ranges `fetchKeyMetrics` puts in its `runReport` requests for a
given `days` argument (ga4-service.ts lines 94–96). -/
structure GA4DateRanges where
  currentStart : String
  currentEnd : String
  previousStart : String
  previousEnd : String
  deriving Repr, DecidableEq, Inhabited

def fetchKeyMetricsDateRanges (days : Int) : GA4DateRanges :=
  { currentStart := toString days ++ "daysAgo"
  , currentEnd := "today"
  , previousStart := toString (days * 2) ++ "daysAgo"
  , previousEnd := toString (days + 1) ++ "daysAgo" }

/-- Model of `metricsController.getLatestMetrics` (metrics-controller.ts lines
35–69).  Read-only; body is the metrics row of the 200 response (`none`
both for error responses and for the explicit `res.json(null)`). -/
def getLatestMetricsHandler (db : DB) (session : Option Int)
    (widParam : Option Int) : Nat × Option MetricRow × DB :=
  match widParam with
  | none => (400, none, db)
  | some wid =>
    match getWebsiteById db wid with
    | none => (404, none, db)
    | some website =>
      if some website.userId ≠ session then (403, none, db)
      else
        match getLatestMetricsByWebsiteId db wid with
        | none => (200, none, db)
        | some m => (200, some m, db)

/-- Result of `syncMetrics`: status code, the date ranges of the
`fetchKeyMetrics` call it made (if it made one), the stored row of the 200
response, and the database afterwards. -/
structure SyncResult where
  code : Nat
  range : Option GA4DateRanges
  stored : Option MetricRow
  db : DB
  deriving Repr, DecidableEq, Inhabited

/-- Model of `metricsController.syncMetrics` (metrics-controller.ts lines 72–119).
`daysParam` is `parseInt(req.query.days)` (`none` for `NaN`); `ga4` is the
outcome of the GA4 fetch (`Except.error` models `fetchKeyMetrics`
throwing).  Note line 108 calls `fetchKeyMetrics(website.gaPropertyId,
authClient)` without a `days` argument, so the service-side default of 30
applies and `validDays` is never used. -/
def syncMetricsHandler (db : DB) (session : Option Int) (widParam : Option Int)
    (daysParam : Option Int) (ga4 : Except Unit FetchInputs) (now : Nat) :
    SyncResult :=
  match widParam with
  | none => ⟨400, none, none, db⟩
  | some wid =>
    -- line 84: computed but never used afterwards
    let _validDays := validDays daysParam
    match getWebsiteById db wid with
    | none => ⟨404, none, none, db⟩
    | some website =>
      if some website.userId ≠ session then ⟨403, none, none, db⟩
      else
        match getUserById db website.userId with
        | none => ⟨400, none, none, db⟩
        | some user =>
          match user.refreshToken with
          | none => ⟨400, none, none, db⟩
          | some _ =>
            match ga4 with
            | .error _ => ⟨500, none, none, db⟩
            | .ok inp =>
              let metricsData := fetchKeyMetricsExtract inp
              let formatted := formatMetricsForStorage metricsData wid now
              let (db', row) := insertMetrics db formatted
              ⟨200, some (fetchKeyMetricsDateRanges 30), some row, db'⟩

/-- Model of `metricsController.deleteWebsite` (metrics-controller.ts lines
168–210). -/
def deleteWebsiteHandler (db : DB) (session : Option Int)
    (widParam : Option Int) : Nat × DB :=
  match session with
  | none => (401, db)
  | some userId =>
    match widParam with
    | none => (400, db)
    | some wid =>
      match getWebsiteById db wid with
      | none => (404, db)
      | some website =>
        if website.userId ≠ userId then (403, db)
        else
          let (db', _deleted) := deleteWebsiteStorage db wid
          (200, db')

/-- Model of `insightController.getInsights` (insight-controller.ts lines 44–78).
`limitQ`/`offsetQ` are the parsed query values (`none` when absent); with
the destructuring defaults `limit = 10, offset = 0`, an absent `limit`
reaches storage as 10 while an absent `offset` (the falsy number 0) reaches
storage as `undefined`. -/
def getInsightsHandler (db : DB) (session : Option Int) (widParam : Option Int)
    (category impact : Option String) (limitQ offsetQ : Option Int) :
    Nat × List InsightRow × DB :=
  match widParam with
  | none => (400, [], db)
  | some wid =>
    match getWebsiteById db wid with
    | none => (404, [], db)
    | some website =>
      if some website.userId ≠ session then (403, [], db)
      else
        let insights := getInsightsByWebsiteId db wid category impact
          (some (limitQ.getD 10)) offsetQ
        (200, insights, db)

/-- Outcome of the asynchronous report-generation block of `generateReport`
(insight-controller.ts lines 227–270): either the OpenAI call produced a
response, or some step of the block (authentication, GA4 fetch, LLM call,
persistence) threw. -/
inductive GenOutcome where
  | ok (resp : String)
  | threw
  deriving Repr, DecidableEq, Inhabited

/-- Result of `generateReport`: status code, the `status` field of the JSON
body when one is sent, the sequence of states the created report row went
through (empty when no report was created), and the final database. -/
structure GenReportResult where
  code : Nat
  bodyStatus : Option String
  trace : List ReportRow
  db : DB
  deriving Repr, DecidableEq, Inhabited

/-- Model of `insightController.generateReport` (insight-controller.ts lines
173–283).  `reportInsertSchema.parse` rejects queries shorter than 5
characters (shared/schema.ts lines 249–251); the resulting throw is caught
by the outer catch and answered with 500 before any insert. The final
database includes the effect of the asynchronously executed generation
block, whose outcome is the `gen` oracle. -/
def generateReportHandler (db : DB) (session : Option Int)
    (widParam : Option Int) (query : Option String) (gen : GenOutcome)
    (now : Nat) : GenReportResult :=
  match widParam with
  | none => ⟨400, none, [], db⟩
  | some wid =>
    if ¬ jsTruthyStr query then ⟨400, none, [], db⟩
    else
      match getWebsiteById db wid with
      | none => ⟨404, none, [], db⟩
      | some website =>
        if some website.userId ≠ session then ⟨403, none, [], db⟩
        else
          if (query.getD "").length < 5 then ⟨500, none, [], db⟩
          else
            let ins :=
              insertReport db website.userId wid (query.getD "") "pending" now
            match getLatestMetricsByWebsiteId ins.1 wid with
            | none =>
              ⟨404, none,
                [ins.2, applyReportUpdate ins.2 { status := some "failed" } now],
                updateReport ins.1 ins.2.id { status := some "failed" } now⟩
            | some _metrics =>
              match getUserById ins.1 website.userId with
              | none =>
                ⟨400, none,
                  [ins.2, applyReportUpdate ins.2 { status := some "failed" } now],
                  updateReport ins.1 ins.2.id { status := some "failed" } now⟩
              | some user =>
                match user.refreshToken with
                | none =>
                  ⟨400, none,
                    [ins.2, applyReportUpdate ins.2 { status := some "failed" } now],
                    updateReport ins.1 ins.2.id { status := some "failed" } now⟩
                | some _ =>
                  -- lines 227–270 run asynchronously; lines 273–277 answer
                  -- 202 with the pending report before they finish
                  match gen with
                  | .ok resp =>
                    ⟨202, some "pending",
                      [ins.2, applyReportUpdate ins.2
                        { response := some resp, status := some "completed" } now],
                      updateReport ins.1 ins.2.id
                        { response := some resp, status := some "completed" } now⟩
                  | .threw =>
                    ⟨202, some "pending",
                      [ins.2, applyReportUpdate ins.2 { status := some "failed" } now],
                      updateReport ins.1 ins.2.id { status := some "failed" } now⟩

/-- Model of `insightController.getReport` (insight-controller.ts lines 286–310).
Read-only; body is the report row of the 200 response. -/
def getReportHandler (db : DB) (session : Option Int)
    (ridParam : Option Int) : Nat × Option ReportRow × DB :=
  match ridParam with
  | none => (400, none, db)
  | some rid =>
    match getReportById db rid with
    | none => (404, none, db)
    | some report =>
      if some report.userId ≠ session then (403, none, db)
      else (200, some report, db)

/-- A concrete `GA4MetricsData` value with every optional field absent,
used to evaluate the normalization step at a specific input. -/
def sampleMetricsData : GA4MetricsData :=
  { visitors := 120
  , conversions := none
  , bounceRate := "46.00%"
  , visitorsChange := "+50.0%"
  , conversionsChange := none
  , bounceRateChange := "0%"
  , activeUsers := none
  , newUsers := none
  , eventCount := none
  , avgEngagementTime := none
  , viewsCount := none
  , sessionsByChannel := none
  , sessionsBySource := none
  , viewsByPage := none
  , usersByCountry := none
  , userStickiness := none
  , rawCurrentData := none
  , rawPreviousData := none
  , deviceBreakdown := none
  , platformBreakdown := none }


/-- Model of `InsertMetric` with the `date` column blanked, for comparing records up
to the stored timestamp. -/
def InsertMetric.clearDate (r : InsertMetric) : InsertMetric := { r with date := 0 }


/-- No metrics, insights or reports row references a website id that has no
website row (the foreign-key discipline of the schema). -/
def referentialIntegrity (db : DB) : Prop :=
  (∀ m ∈ db.metrics, ∃ w ∈ db.websites, w.id = m.data.websiteId) ∧
  (∀ i ∈ db.insights, ∃ w ∈ db.websites, w.id = i.websiteId) ∧
  (∀ r ∈ db.reports, ∃ w ∈ db.websites, w.id = r.websiteId)


/-- A concrete database for witness instantiations: user 1 owns website 1
(with one metrics row, one insight and one report), user 2 owns website 2. -/
def sampleDB : DB :=
  { users :=
      [ { id := 1, email := "a@example.com", name := "A", googleId := "ga"
        , refreshToken := some "tok" }
      , { id := 2, email := "b@example.com", name := "B", googleId := "gb"
        , refreshToken := some "tok2" } ]
  , websites :=
      [ { id := 1, userId := 1, name := "Site", domain := "site.test"
        , gaPropertyId := "123" }
      , { id := 2, userId := 2, name := "Other", domain := "other.test"
        , gaPropertyId := "456" } ]
  , metrics := [ { id := 10, data := formatMetricsForStorage sampleMetricsData 1 5 } ]
  , insights :=
      [ { id := 11, websiteId := 1, category := "Traffic", impact := "High"
        , detectedAt := 5 } ]
  , reports :=
      [ { id := 12, userId := 1, websiteId := 1, query := "how is traffic"
        , response := none, status := "pending", createdAt := 5, updatedAt := 5 } ]
  , nextId := 13 }


/-- Serial-id discipline: every existing report id is below the id counter
(what the database's serial primary key guarantees). -/
def DB.freshIds (db : DB) : Prop := ∀ r ∈ db.reports, r.id < db.nextId


/-- The legal transitions of a report after creation: from `pending` either
to `completed` together with a response, or to `failed`. -/
def reportStep (a b : ReportRow) : Prop :=
  a.status = "pending" ∧
    ((b.status = "completed" ∧ b.response ≠ none) ∨ b.status = "failed")


/-- The status-machine properties of one `generateReport` run against the
initial database `db`: every state of the created report has a status among
`pending`/`completed`/`failed`; the report is created `pending` with no
response; consecutive states follow `reportStep`; `completed` implies a
response; a 202 answer carries body status `pending`; and every report in
the final database is either an untouched pre-existing report or a state of
the created one. -/
def reportMachineProps (db : DB) (res : GenReportResult) : Prop :=
  (∀ r ∈ res.trace,
    r.status = "pending" ∨ r.status = "completed" ∨ r.status = "failed") ∧
  (∀ r, res.trace.head? = some r → r.status = "pending" ∧ r.response = none) ∧
  List.Chain' reportStep res.trace ∧
  (∀ r ∈ res.trace, r.status = "completed" → r.response ≠ none) ∧
  (res.code = 202 → res.bodyStatus = some "pending") ∧
  (∀ r ∈ res.db.reports, r ∈ db.reports ∨ r ∈ res.trace)


/-- The metric value at index `i` of the first current-period primary row
(`'0'` when the row or the entry is missing). -/
def primaryValue (inp : FetchInputs) (i : Nat) : Rat :=
  match inp.currentPrimary with
  | [] => 0
  | r :: _ => r.mval i


/-- The sum over the secondary-batch rows of the metric value at index `i`
(0 when the secondary fetch failed). -/
def secondarySum (inp : FetchInputs) (i : Nat) : Rat :=
  match inp.secondaryCurrent with
  | none => 0
  | some rows => rows.foldl (fun acc r => acc + r.mval i) 0


/-- The `${minutes}m ${seconds}s` engagement-time rendering of a duration
in seconds. -/
def engagementTimeString (d : Rat) : String :=
  toString (⌊d / 60⌋ : Int) ++ "m " ++ toString (⌊jsFmod d 60⌋ : Int) ++ "s"


/-- A primary-response row whose eleven metric values are pairwise
distinguishable at indices 8 and 9. -/
def cexRow : GA4Row :=
  { dimensionValues := []
  , metricValues := [1, 2, 3, 4, 5, 6, 7, 8, 90, 100, 11] }


/-- Response data exercising only the primary current-period request. -/
def cexInputs : FetchInputs :=
  { currentPrimary := [cexRow]
  , previousPrimary := []
  , secondaryCurrent := none
  , channelRows := none
  , sourceRows := none
  , pageRows := none
  , countryRows := none
  , metricsRows := none }


/-! ## Theorems -/

/-- C2: the claim says every `runReport` request carries at most 10 metrics,
and the code's own comments promise the same split ("GA4 API has a limit of
10 metrics per request, so we need to split our metrics"); but the primary
batch of `fetchKeyMetrics` contains 11 metric names, so the two requests
built from it exceed the documented limit.  Every other request of
`fetchKeyMetrics` and all requests of `fetchHistoricalData` stay within
the limit. -/
theorem primary_batch_exceeds_ten_metric_limit :
    primaryMetrics.length = 11 ∧
    ¬ primaryMetrics.length ≤ 10 ∧
    fetchKeyMetricsBatches.map List.length = [11, 11, 3, 3, 1, 1, 1, 1, 3] ∧
    fetchHistoricalDataBatches.map List.length = [3, 6, 3, 2] := by
  decide

/-- C4: `calculateChange` is total, returns `"0%"` at `previous = 0` without
dividing, and otherwise renders `((current - previous) / previous) * 100`
to one decimal place with a `'+'` marker exactly when the change is
positive. -/
theorem calculateChange_spec : ∀ current previous : Rat,
    (previous = 0 → calculateChange current previous = "0%") ∧
    (previous ≠ 0 →
      calculateChange current previous =
        (if ((current - previous) / previous) * 100 > 0 then "+" else "")
          ++ toFixed 1 (((current - previous) / previous) * 100) ++ "%") := by
  intro c p
  constructor
  · intro h; simp [calculateChange, h]
  · intro h; simp [calculateChange, h]

/-- C4 witness: `calculateChange` evaluated on a positive change and on a
zero previous value. -/
theorem calculateChange_spec_witness :
    calculateChange 150 100 = "+50.0%" ∧ calculateChange 5 0 = "0%" := by
  constructor
  · rw [(calculateChange_spec 150 100).2 (by norm_num)]
    norm_num [toFixed, jsRound, padDigits]
    decide
  · exact (calculateChange_spec 5 0).1 rfl

/-- C5: `formatMetricsForStorage` always emits the full metric-schema
record with `conversions = 0`, `pageSpeed = "3.5s"`,
`conversionsChange = "0%"` and `pageSpeedChange = "0%"` regardless of the
input, carries the given `websiteId`, and backfills each absent optional
input with its default. -/
theorem formatMetricsForStorage_shape :
    ∀ (m : GA4MetricsData) (wid : Int) (now : Nat),
      (formatMetricsForStorage m wid now).conversions = 0 ∧
      (formatMetricsForStorage m wid now).pageSpeed = "3.5s" ∧
      (formatMetricsForStorage m wid now).conversionsChange = "0%" ∧
      (formatMetricsForStorage m wid now).pageSpeedChange = "0%" ∧
      (formatMetricsForStorage m wid now).websiteId = wid ∧
      (m.activeUsers = none → (formatMetricsForStorage m wid now).activeUsers = 0) ∧
      (m.newUsers = none → (formatMetricsForStorage m wid now).newUsers = 0) ∧
      (m.eventCount = none → (formatMetricsForStorage m wid now).eventCount = 0) ∧
      (m.avgEngagementTime = none →
        (formatMetricsForStorage m wid now).avgEngagementTime = "0s") ∧
      (m.viewsCount = none → (formatMetricsForStorage m wid now).viewsCount = 0) ∧
      (m.userStickiness = none →
        (formatMetricsForStorage m wid now).userStickiness = "0.0%") ∧
      (m.sessionsByChannel = none →
        (formatMetricsForStorage m wid now).sessionsByChannel = []) ∧
      (m.sessionsBySource = none →
        (formatMetricsForStorage m wid now).sessionsBySource = []) ∧
      (m.viewsByPage = none → (formatMetricsForStorage m wid now).viewsByPage = []) ∧
      (m.usersByCountry = none →
        (formatMetricsForStorage m wid now).usersByCountry = []) := by
  intro m wid now
  have hz : jsRound 0 = 0 := by norm_num [jsRound]
  refine ⟨rfl, rfl, rfl, rfl, rfl, ?_, ?_, ?_, ?_, ?_, ?_, ?_, ?_, ?_, ?_⟩ <;>
    intro h <;> simp [formatMetricsForStorage, jsOrNum, jsOrStrOpt, h, hz]

/-- C5 witness: the shape theorem applied to a concrete input with every
optional field absent. -/
theorem formatMetricsForStorage_shape_witness :
    (formatMetricsForStorage sampleMetricsData 7 0).conversions = 0 ∧
    (formatMetricsForStorage sampleMetricsData 7 0).activeUsers = 0 ∧
    (formatMetricsForStorage sampleMetricsData 7 0).avgEngagementTime = "0s" ∧
    (formatMetricsForStorage sampleMetricsData 7 0).userStickiness = "0.0%" ∧
    (formatMetricsForStorage sampleMetricsData 7 0).sessionsByChannel = [] := by
  have h := formatMetricsForStorage_shape sampleMetricsData 7 0
  exact ⟨h.1, h.2.2.2.2.2.1 rfl, h.2.2.2.2.2.2.2.2.1 rfl,
    h.2.2.2.2.2.2.2.2.2.2.1 rfl, h.2.2.2.2.2.2.2.2.2.2.2.1 rfl⟩

/-- C7 counterexample: `formatMetricsForStorage` evaluates `new Date()`, so
two invocations with the same `(metricsData, websiteId)` arguments made at
different times return records that differ (in the `date` field); the
claim that any two invocations with the same arguments return equal
records is therefore false. -/
theorem formatMetricsForStorage_depends_on_clock :
    formatMetricsForStorage sampleMetricsData 7 0
      ≠ formatMetricsForStorage sampleMetricsData 7 1 := by
  decide

/-- C7 amended: `formatMetricsForStorage` is deterministic given the clock
reading: the `date` field is exactly the time of the call, and every other
field depends only on the `(metricsData, websiteId)` arguments, not on
when the call is made. -/
theorem formatMetricsForStorage_deterministic_modulo_date :
    ∀ (m : GA4MetricsData) (wid : Int) (t t' : Nat),
      (formatMetricsForStorage m wid t).date = t ∧
      (formatMetricsForStorage m wid t).clearDate
        = (formatMetricsForStorage m wid t').clearDate :=
  fun _ _ _ _ => ⟨rfl, rfl⟩

/-- C9: after `storage.deleteWebsite(id)` no metrics, insights or reports
row with `websiteId = id` remains and the website row is gone; rows of
every other website are untouched; and referential integrity is
preserved. -/
theorem deleteWebsiteStorage_spec :
    ∀ (db : DB) (id : Int),
      (∀ m ∈ (deleteWebsiteStorage db id).1.metrics, m.data.websiteId ≠ id) ∧
      (∀ i ∈ (deleteWebsiteStorage db id).1.insights, i.websiteId ≠ id) ∧
      (∀ r ∈ (deleteWebsiteStorage db id).1.reports, r.websiteId ≠ id) ∧
      (∀ w ∈ (deleteWebsiteStorage db id).1.websites, w.id ≠ id) ∧
      (∀ m : MetricRow, m.data.websiteId ≠ id →
        (m ∈ (deleteWebsiteStorage db id).1.metrics ↔ m ∈ db.metrics)) ∧
      (∀ i : InsightRow, i.websiteId ≠ id →
        (i ∈ (deleteWebsiteStorage db id).1.insights ↔ i ∈ db.insights)) ∧
      (∀ r : ReportRow, r.websiteId ≠ id →
        (r ∈ (deleteWebsiteStorage db id).1.reports ↔ r ∈ db.reports)) ∧
      (∀ w : WebsiteRow, w.id ≠ id →
        (w ∈ (deleteWebsiteStorage db id).1.websites ↔ w ∈ db.websites)) ∧
      (referentialIntegrity db → referentialIntegrity (deleteWebsiteStorage db id).1) := by
  intro db id
  refine ⟨?_, ?_, ?_, ?_, ?_, ?_, ?_, ?_, ?_⟩
  · intro m hm
    simp [deleteWebsiteStorage, List.mem_filter] at hm
    exact hm.2
  · intro i hi
    simp [deleteWebsiteStorage, List.mem_filter] at hi
    exact hi.2
  · intro r hr
    simp [deleteWebsiteStorage, List.mem_filter] at hr
    exact hr.2
  · intro w hw
    simp [deleteWebsiteStorage, List.mem_filter] at hw
    exact hw.2
  · intro m hne
    simp [deleteWebsiteStorage, List.mem_filter, hne]
  · intro i hne
    simp [deleteWebsiteStorage, List.mem_filter, hne]
  · intro r hne
    simp [deleteWebsiteStorage, List.mem_filter, hne]
  · intro w hne
    simp [deleteWebsiteStorage, List.mem_filter, hne]
  · rintro ⟨h1, h2, h3⟩
    refine ⟨?_, ?_, ?_⟩
    · intro m hm
      simp [deleteWebsiteStorage, List.mem_filter] at hm ⊢
      obtain ⟨w, hw, hid⟩ := h1 m hm.1
      exact ⟨w, ⟨hw, by rw [hid]; exact hm.2⟩, hid⟩
    · intro i hi
      simp [deleteWebsiteStorage, List.mem_filter] at hi ⊢
      obtain ⟨w, hw, hid⟩ := h2 i hi.1
      exact ⟨w, ⟨hw, by rw [hid]; exact hi.2⟩, hid⟩
    · intro r hr
      simp [deleteWebsiteStorage, List.mem_filter] at hr ⊢
      obtain ⟨w, hw, hid⟩ := h3 r hr.1
      exact ⟨w, ⟨hw, by rw [hid]; exact hr.2⟩, hid⟩

/-- C9 witness: the deletion theorem instantiated on `sampleDB`: deleting
website 1 removes its report row yet keeps website 2's row available. -/
theorem deleteWebsiteStorage_spec_witness :
    (∀ r ∈ (deleteWebsiteStorage sampleDB 1).1.reports, r.websiteId ≠ 1) ∧
    ((⟨2, 2, "Other", "other.test", "456"⟩ : WebsiteRow)
        ∈ (deleteWebsiteStorage sampleDB 1).1.websites ↔
      (⟨2, 2, "Other", "other.test", "456"⟩ : WebsiteRow) ∈ sampleDB.websites) := by
  have h := deleteWebsiteStorage_spec sampleDB 1
  exact ⟨h.2.2.1, h.2.2.2.2.2.2.2.1 ⟨2, 2, "Other", "other.test", "456"⟩ (by decide)⟩

/-- C10: `syncMetrics` is independent of the `days` query parameter — the
handler result (response code, stored row, database) is identical for any
two values, the GA4 fetch it performs always uses the service default
30-day range, and the handler's `validDays` computation does clamp into
`[1, 90]` even though its value is never used. -/
theorem syncMetrics_ignores_days :
    ∀ (db : DB) (session : Option Int) (widp d1 d2 : Option Int)
      (ga4 : Except Unit FetchInputs) (now : Nat),
      syncMetricsHandler db session widp d1 ga4 now
        = syncMetricsHandler db session widp d2 ga4 now ∧
      ((syncMetricsHandler db session widp d1 ga4 now).range = none ∨
        (syncMetricsHandler db session widp d1 ga4 now).range
          = some (fetchKeyMetricsDateRanges 30)) ∧
      1 ≤ validDays d1 ∧ validDays d1 ≤ 90 := by
  intro db session widp d1 d2 ga4 now
  refine ⟨?_, ?_, ?_, ?_⟩
  · cases widp <;> rfl
  · unfold syncMetricsHandler
    repeat' split
    all_goals simp
  · cases d1 <;> simp [validDays]
  · cases d1 <;> simp [validDays]

/-- C8: every authenticated handler that loads a website or report by id
answers 403 and leaves the database unchanged whenever the resource exists
but its `userId` differs from the session's user — for `getLatestMetrics`,
`syncMetrics`, `deleteWebsite`, `getInsights`, `generateReport` (with a
present query) and `getReport`. -/
theorem ownership_check_enforced :
    (∀ (db : DB) (s : Option Int) (wid : Int) (website : WebsiteRow),
        getWebsiteById db wid = some website → some website.userId ≠ s →
        getLatestMetricsHandler db s (some wid) = (403, none, db)) ∧
    (∀ (db : DB) (s : Option Int) (wid : Int) (website : WebsiteRow)
        (d : Option Int) (ga4 : Except Unit FetchInputs) (now : Nat),
        getWebsiteById db wid = some website → some website.userId ≠ s →
        syncMetricsHandler db s (some wid) d ga4 now = ⟨403, none, none, db⟩) ∧
    (∀ (db : DB) (uid wid : Int) (website : WebsiteRow),
        getWebsiteById db wid = some website → website.userId ≠ uid →
        deleteWebsiteHandler db (some uid) (some wid) = (403, db)) ∧
    (∀ (db : DB) (s : Option Int) (wid : Int) (website : WebsiteRow)
        (category impact : Option String) (lim off : Option Int),
        getWebsiteById db wid = some website → some website.userId ≠ s →
        getInsightsHandler db s (some wid) category impact lim off = (403, [], db)) ∧
    (∀ (db : DB) (s : Option Int) (wid : Int) (website : WebsiteRow)
        (q : Option String) (gen : GenOutcome) (now : Nat),
        jsTruthyStr q = true →
        getWebsiteById db wid = some website → some website.userId ≠ s →
        generateReportHandler db s (some wid) q gen now = ⟨403, none, [], db⟩) ∧
    (∀ (db : DB) (s : Option Int) (rid : Int) (report : ReportRow),
        getReportById db rid = some report → some report.userId ≠ s →
        getReportHandler db s (some rid) = (403, none, db)) := by
  refine ⟨?_, ?_, ?_, ?_, ?_, ?_⟩
  · intro db s wid website hW hne
    simp [getLatestMetricsHandler, hW, hne]
  · intro db s wid website d ga4 now hW hne
    simp [syncMetricsHandler, hW, hne]
  · intro db uid wid website hW hne
    simp [deleteWebsiteHandler, hW, hne]
  · intro db s wid website category impact lim off hW hne
    simp [getInsightsHandler, hW, hne]
  · intro db s wid website q gen now hq hW hne
    simp [generateReportHandler, hq, hW, hne]
  · intro db s rid report hR hne
    simp [getReportHandler, hR, hne]

/-- C8 witness: in `sampleDB`, user 1 requesting website 2 (owned by user
2) and user 2 requesting report 12 (owned by user 1) both get 403 with the
database untouched. -/
theorem ownership_check_enforced_witness :
    getLatestMetricsHandler sampleDB (some 1) (some 2) = (403, none, sampleDB) ∧
    getReportHandler sampleDB (some 2) (some 12) = (403, none, sampleDB) := by
  refine ⟨?_, ?_⟩
  · exact ownership_check_enforced.1 sampleDB (some 1) 2
      ⟨2, 2, "Other", "other.test", "456"⟩ rfl (by simp)
  · exact ownership_check_enforced.2.2.2.2.2 sampleDB (some 2) 12
      ⟨12, 1, 1, "how is traffic", none, "pending", 5, 5⟩ rfl (by simp)

lemma reportMachineProps_noop (db : DB) (code : Nat) (bs : Option String)
    (h202 : code = 202 → bs = some "pending") :
    reportMachineProps db ⟨code, bs, [], db⟩ := by
  refine ⟨by simp, by simp, by simp, by simp, h202, fun r hr => Or.inl hr⟩

lemma reportMachineProps_insert_update (db : DB) (hfresh : DB.freshIds db)
    (uid wid : Int) (q : String) (now : Nat) (u : ReportUpdate)
    (code : Nat) (bs : Option String)
    (hu : (u.status = some "failed" ∧ u.response = none) ∨
      (u.status = some "completed" ∧ ∃ v, u.response = some v))
    (h202 : code = 202 → bs = some "pending") :
    reportMachineProps db
      ⟨code, bs,
        [(insertReport db uid wid q "pending" now).2,
          applyReportUpdate (insertReport db uid wid q "pending" now).2 u now],
        updateReport (insertReport db uid wid q "pending" now).1
          (insertReport db uid wid q "pending" now).2.id u now⟩ := by
  have hmem : ∀ r ∈ (updateReport (insertReport db uid wid q "pending" now).1
      (insertReport db uid wid q "pending" now).2.id u now).reports,
      r ∈ db.reports ∨
        r = applyReportUpdate (insertReport db uid wid q "pending" now).2 u now := by
    intro r hr
    simp only [updateReport, insertReport, List.map_append, List.map_cons,
      List.map_nil, List.mem_append, List.mem_map, List.mem_cons,
      List.not_mem_nil, or_false, List.mem_singleton] at hr
    rcases hr with ⟨a, ha, hra⟩ | hr
    · have hlt := hfresh a ha
      by_cases hcase : (a.id == db.nextId) = true
      · have : a.id = db.nextId := by simpa using hcase
        omega
      · rw [if_neg hcase] at hra
        exact Or.inl (hra ▸ ha)
    · simp only [beq_self_eq_true, if_true] at hr
      right
      exact hr
  rcases hu with ⟨hs, hresp⟩ | ⟨hs, v, hresp⟩ <;>
    refine ⟨?_, ?_, ?_, ?_, h202,
        fun r hr => (hmem r hr).imp id (fun he => by rw [he]; simp)⟩ <;>
      simp [insertReport, applyReportUpdate, reportStep, hs, hresp]

/-- C3: in every run of `generateReport`, the created report starts as
`pending` with no response (and a 202 answer reports exactly that status);
every state it takes is one of `pending`/`completed`/`failed`; the only
transitions are `pending → completed` set together with a response and
`pending → failed`; a `completed` state always carries a response; and no
other report row is touched. -/
theorem generateReport_status_machine :
    ∀ (db : DB) (s : Option Int) (widp : Option Int) (q : Option String)
      (gen : GenOutcome) (now : Nat),
      DB.freshIds db →
      reportMachineProps db (generateReportHandler db s widp q gen now) := by
  intro db s widp q gen now hfresh
  unfold generateReportHandler
  dsimp only
  repeat' split
  all_goals
    first
    | exact reportMachineProps_noop _ _ _ (by simp)
    | exact reportMachineProps_insert_update _ hfresh _ _ _ _ _ _ _
        (Or.inl ⟨rfl, rfl⟩) (by simp)
    | exact reportMachineProps_insert_update _ hfresh _ _ _ _ _ _ _
        (Or.inr ⟨rfl, _, rfl⟩) (by simp)

/-- C3 witness: a successful run over `sampleDB` answers 202 with body
status `pending`. -/
theorem generateReport_status_machine_witness :
    (generateReportHandler sampleDB (some 1) (some 1) (some "how is traffic")
      (GenOutcome.ok "resp") 6).bodyStatus = some "pending" := by
  have h := generateReport_status_machine sampleDB (some 1) (some 1)
    (some "how is traffic") (GenOutcome.ok "resp") 6
    (by unfold DB.freshIds; decide)
  exact h.2.2.2.2.1 rfl

/-- Inserting a report leaves the metrics table untouched. -/
lemma getLatestMetrics_insertReport (db : DB) (uid wid : Int) (q st : String)
    (now : Nat) (wid' : Int) :
    getLatestMetricsByWebsiteId (insertReport db uid wid q st now).1 wid'
      = getLatestMetricsByWebsiteId db wid' := rfl

/-- Inserting a report leaves the users table untouched. -/
lemma getUserById_insertReport (db : DB) (uid wid : Int) (q st : String)
    (now : Nat) (uid' : Int) :
    getUserById (insertReport db uid wid q st now).1 uid' = getUserById db uid' :=
  rfl

/-- The report row created by `insertReport`, spelled out. -/
lemma insertReport_report (db : DB) (uid wid : Int) (q st : String) (now : Nat) :
    (insertReport db uid wid q st now).2 =
      { id := db.nextId, userId := uid, websiteId := wid, query := q
      , response := none, status := st, createdAt := now, updatedAt := now } := rfl

/-- C6: report failure handling is a status flip.  For a well-formed
authorized request: when the website has no stored metrics the handler
flips the just-created report to `failed` (response left unset) and answers
404; and when the asynchronous generation block throws, the report ends
`failed` with its response unset while the client already got 202. -/
theorem generateReport_failure_flips_status :
    ∀ (db : DB) (s : Option Int) (wid : Int) (website : WebsiteRow)
      (q : String) (gen : GenOutcome) (now : Nat),
      q ≠ "" → 5 ≤ q.length →
      getWebsiteById db wid = some website → some website.userId = s →
      ((getLatestMetricsByWebsiteId db wid = none →
        (generateReportHandler db s (some wid) (some q) gen now).code = 404 ∧
        ((generateReportHandler db s (some wid) (some q) gen now).trace.getLast?.map
          (fun r => (r.status, r.response))) = some ("failed", none)) ∧
      (gen = GenOutcome.threw →
        (generateReportHandler db s (some wid) (some q) gen now).code = 202 →
        ((generateReportHandler db s (some wid) (some q) gen now).trace.getLast?.map
          (fun r => (r.status, r.response))) = some ("failed", none))) := by
  intro db s wid website q gen now hq hlen hW howner
  have hlen' : ¬ q.length < 5 := by omega
  constructor
  · intro hm
    simp [generateReportHandler, jsTruthyStr, hq, hW, howner, hlen',
      getLatestMetrics_insertReport, hm, insertReport_report, applyReportUpdate]
  · intro hgen h202
    subst hgen
    rcases hmet : getLatestMetricsByWebsiteId db wid with _ | m
    · exfalso
      have : (generateReportHandler db s (some wid) (some q)
          GenOutcome.threw now).code = 404 := by
        simp [generateReportHandler, jsTruthyStr, hq, hW, howner, hlen',
          getLatestMetrics_insertReport, hmet]
      omega
    · rcases huser : getUserById db website.userId with _ | user
      · exfalso
        have : (generateReportHandler db s (some wid) (some q)
            GenOutcome.threw now).code = 400 := by
          simp [generateReportHandler, jsTruthyStr, hq, hW, howner, hlen',
            getLatestMetrics_insertReport, hmet, getUserById_insertReport, huser]
        omega
      · rcases htok : user.refreshToken with _ | tok
        · exfalso
          have : (generateReportHandler db s (some wid) (some q)
              GenOutcome.threw now).code = 400 := by
            simp [generateReportHandler, jsTruthyStr, hq, hW, howner, hlen',
              getLatestMetrics_insertReport, hmet, getUserById_insertReport,
              huser, htok]
          omega
        · simp [generateReportHandler, jsTruthyStr, hq, hW, howner, hlen',
            getLatestMetrics_insertReport, hmet, getUserById_insertReport,
            huser, htok, insertReport_report, applyReportUpdate]

/-- C6 witness: on a copy of `sampleDB` whose website 1 has no metrics
rows, a report request gets 404 and the created report ends `failed`
without a response; and on `sampleDB` itself a throwing generation ends
the report `failed` without a response. -/
theorem generateReport_failure_flips_status_witness :
    ((generateReportHandler { sampleDB with metrics := [] } (some 1) (some 1)
        (some "how is traffic") (GenOutcome.ok "resp") 6).code = 404 ∧
      ((generateReportHandler { sampleDB with metrics := [] } (some 1) (some 1)
        (some "how is traffic") (GenOutcome.ok "resp") 6).trace.getLast?.map
          (fun r => (r.status, r.response))) = some ("failed", none)) ∧
    ((generateReportHandler sampleDB (some 1) (some 1)
        (some "how is traffic") GenOutcome.threw 6).trace.getLast?.map
          (fun r => (r.status, r.response))) = some ("failed", none) := by
  constructor
  · exact (generateReport_failure_flips_status { sampleDB with metrics := [] }
      (some 1) 1 ⟨1, 1, "Site", "site.test", "123"⟩ "how is traffic"
      (GenOutcome.ok "resp") 6 (by decide) (by decide) rfl rfl).1 rfl
  · exact (generateReport_failure_flips_status sampleDB
      (some 1) 1 ⟨1, 1, "Site", "site.test", "123"⟩ "how is traffic"
      GenOutcome.threw 6 (by decide) (by decide) rfl rfl).2 rfl rfl

/-! ## Positional mapping of `fetchKeyMetrics` outputs (C1) -/

lemma getD_take4 (l : List Rat) (i : Nat) (h : i < 4) :
    (l.take 4).getD i 0 = l.getD i 0 := by
  simp [List.getD_eq_getElem?_getD, List.getElem?_take, h]

/-- C1 counterexample: the claim says `activeUsers` is read from the
positional index at which `'activeUsers'` appears in the primary metric
list (index 9); on a response whose first row carries 90 at index 8 and
100 at index 9, the code returns 90 — the value at the position of the
`'sessions'` metric — not 100. -/
theorem fetchKeyMetrics_activeUsers_position_cex :
    (fetchKeyMetricsExtract cexInputs).activeUsers
        ≠ some (cexRow.mval (List.indexOf "activeUsers" primaryMetrics)) ∧
    (fetchKeyMetricsExtract cexInputs).activeUsers
        = some (cexRow.mval (List.indexOf "sessions" primaryMetrics)) := by
  have hidx9 : List.indexOf "activeUsers" primaryMetrics = 9 := by decide
  have hidx8 : List.indexOf "sessions" primaryMetrics = 8 := by decide
  have hval : (fetchKeyMetricsExtract cexInputs).activeUsers
      = some ((jsRound 90 : Int) : Rat) := rfl
  have hj : jsRound (90 : Rat) = 90 := by norm_num [jsRound]
  have h9 : cexRow.mval 9 = 100 := rfl
  have h8 : cexRow.mval 8 = 90 := rfl
  constructor
  · rw [hval, hidx9, h9, hj]
    intro h
    have : ((90 : Int) : Rat) = 100 := Option.some.inj h
    norm_num at this
  · rw [hval, hidx8, h8, hj]
    norm_num

/-- C1 amended: in `fetchKeyMetrics`, `visitors`, `bounceRate` and
`avgEngagementTime` are read from the positions of `'totalUsers'`,
`'engagementRate'` and `'userEngagementDuration'` in the primary batch,
and the fallback `newUsers` accumulator from the position of `'newUsers'`
in the secondary batch — but `activeUsers` is read from fixed index 8,
which is the position of the `'sessions'` metric, and the fallback
`eventCount` accumulator from secondary index 0, the position of
`'eventCountPerUser'` (the metric `'eventCount'` does not occur in the
secondary batch at all). -/
theorem fetchKeyMetricsExtract_positional_mapping :
    ∀ inp : FetchInputs,
      (fetchKeyMetricsExtract inp).visitors
        = ((jsRound (primaryValue inp
            (List.indexOf "totalUsers" primaryMetrics)) : Int) : Rat) ∧
      (fetchKeyMetricsExtract inp).bounceRate
        = toFixed 2 (min 100 (max 0
            (max 0 (min 1 (1 - primaryValue inp
              (List.indexOf "engagementRate" primaryMetrics))) * 100))) ++ "%" ∧
      (fetchKeyMetricsExtract inp).avgEngagementTime
        = some (engagementTimeString (primaryValue inp
            (List.indexOf "userEngagementDuration" primaryMetrics))) ∧
      (fetchKeyMetricsExtract inp).newUsers
        = some ((jsRound (secondarySum inp
            (List.indexOf "newUsers" secondaryMetrics)) : Int) : Rat) ∧
      (fetchKeyMetricsExtract inp).activeUsers
        = some ((jsRound (primaryValue inp
            (List.indexOf "sessions" primaryMetrics)) : Int) : Rat) ∧
      "eventCount" ∉ secondaryMetrics ∧
      (inp.metricsRows = none →
        (fetchKeyMetricsExtract inp).eventCount
          = some ((jsRound (secondarySum inp
              (List.indexOf "eventCountPerUser" secondaryMetrics)) : Int) : Rat)) := by
  intro inp
  obtain ⟨cp, pp, sc, ch, so, pg, co, mr⟩ := inp
  have i0 : List.indexOf "totalUsers" primaryMetrics = 0 := by decide
  have i2 : List.indexOf "engagementRate" primaryMetrics = 2 := by decide
  have i3 : List.indexOf "userEngagementDuration" primaryMetrics = 3 := by decide
  have i8 : List.indexOf "sessions" primaryMetrics = 8 := by decide
  have s1 : List.indexOf "newUsers" secondaryMetrics = 1 := by decide
  have s0 : List.indexOf "eventCountPerUser" secondaryMetrics = 0 := by decide
  refine ⟨?_, ?_, ?_, ?_, ?_, by decide, ?_⟩
  · rw [i0]
    cases cp with
    | nil => rfl
    | cons r rest =>
      dsimp only [fetchKeyMetricsExtract, primaryValue, GA4Row.mval]
      rw [getD_take4 _ 0 (by norm_num)]
  · rw [i2]
    cases cp with
    | nil => rfl
    | cons r rest =>
      dsimp only [fetchKeyMetricsExtract, primaryValue, GA4Row.mval]
      rw [getD_take4 _ 2 (by norm_num)]
  · rw [i3]
    cases cp with
    | nil => rfl
    | cons r rest =>
      dsimp only [fetchKeyMetricsExtract, primaryValue, GA4Row.mval,
        engagementTimeString]
      by_cases h4 : 4 ≤ r.metricValues.length
      · have hlen : (r.metricValues.take 4).length > 3 := by
          simp [List.length_take]
          omega
        rw [if_pos hlen, getD_take4 _ 3 (by norm_num)]
      · have hlen : ¬ (r.metricValues.take 4).length > 3 := by
          simp [List.length_take]
          omega
        rw [if_neg hlen, List.getD_eq_default _ _ (by omega)]
  · rw [s1]
    cases sc with
    | none => rfl
    | some rows => rfl
  · rw [i8]
    cases cp with
    | nil => rfl
    | cons r rest =>
      dsimp only [fetchKeyMetricsExtract, primaryValue, GA4Row.mval]
      by_cases h9 : 8 < r.metricValues.length
      · rw [if_pos h9]
      · rw [if_neg h9, List.getD_eq_default _ _ (by omega)]
  · intro hmr
    subst hmr
    rw [s0]
    cases sc with
    | none => rfl
    | some rows => rfl

/-- C1 amended witness: the mapping theorem evaluated on the concrete
response data: `visitors` is the rounded value at the `'totalUsers'`
position, and with the extra metrics request absent the `eventCount`
fallback sums the (empty) secondary batch to 0. -/
theorem fetchKeyMetricsExtract_positional_mapping_witness :
    (fetchKeyMetricsExtract cexInputs).visitors = 1 ∧
    (fetchKeyMetricsExtract cexInputs).eventCount = some 0 := by
  have h := fetchKeyMetricsExtract_positional_mapping cexInputs
  constructor
  · rw [h.1]
    have hp : primaryValue cexInputs (List.indexOf "totalUsers" primaryMetrics)
        = 1 := rfl
    rw [hp]
    norm_num [jsRound]
  · rw [h.2.2.2.2.2.2 rfl]
    have hs : secondarySum cexInputs
        (List.indexOf "eventCountPerUser" secondaryMetrics) = 0 := rfl
    rw [hs]
    norm_num [jsRound]

end VibePulse
